import Mathlib

/-!
Verification development for the DockerLogStreamer broker (src/app.py).

The Python source is shallowly embedded below:
* the byte-level log demultiplexer `DockerAPIClient.stream_logs_generator`
  (app.py lines 41-105) becomes `streamLogsGen` over lists of byte chunks,
  with the cooperative stop event quantized to the index of the first
  `is_set()` call that observes it set;
* the module-level registries `user_sessions` and `active_streams`
  (app.py lines 16-18) and the socket handlers `connect_docker`,
  `disconnect_docker`, `start_logs`, `stop_logs`, `disconnect` together
  with the helpers `stop_stream` and `stop_user_streams` become a state
  machine on `BrokerState`, each handler returning the next state plus the
  list of socket events it emits to rooms.

Bytes are `Nat` (values 0..255), byte strings are `List Nat`, decoded text
is `List Char` / `String`.
-/

/-- A UTF-8 continuation byte, in the range 0x80..0xBF. -/
def isCont (b : Nat) : Bool :=
  decide (0x80 ≤ b ∧ b ≤ 0xBF)

/-- Valid second byte of a three-byte UTF-8 sequence with lead byte `b`
    (RFC 3629 restrictions: E0 needs A0..BF, ED needs 80..9F). -/
def utf8Second3 (b b1 : Nat) : Bool :=
  if b = 0xE0 then decide (0xA0 ≤ b1 ∧ b1 ≤ 0xBF)
  else if b = 0xED then decide (0x80 ≤ b1 ∧ b1 ≤ 0x9F)
  else isCont b1

/-- Valid second byte of a four-byte UTF-8 sequence with lead byte `b`
    (F0 needs 90..BF, F4 needs 80..8F). -/
def utf8Second4 (b b1 : Nat) : Bool :=
  if b = 0xF0 then decide (0x90 ≤ b1 ∧ b1 ≤ 0xBF)
  else if b = 0xF4 then decide (0x80 ≤ b1 ∧ b1 ≤ 0x8F)
  else isCont b1

/-- Worker for `utf8DecodeIgnore`, structurally recursive on a fuel bound.
    Every recursive call shortens the byte list by at least one, so fuel equal
    to the length of the list never runs out. -/
def utf8DecodeIgnoreGo : Nat → List Nat → List Char
  | 0, _ => []
  | _, [] => []
  | fuel + 1, b :: rest =>
    if b ≤ 0x7F then Char.ofNat b :: utf8DecodeIgnoreGo fuel rest
    else if b < 0xC2 then utf8DecodeIgnoreGo fuel rest
    else if b ≤ 0xDF then
      match rest with
      | [] => []
      | b1 :: rest2 =>
        if isCont b1 then
          Char.ofNat ((b - 0xC0) * 64 + (b1 - 0x80)) :: utf8DecodeIgnoreGo fuel rest2
        else utf8DecodeIgnoreGo fuel (b1 :: rest2)
    else if b ≤ 0xEF then
      match rest with
      | [] => []
      | [b1] => if utf8Second3 b b1 then [] else utf8DecodeIgnoreGo fuel [b1]
      | b1 :: b2 :: rest3 =>
        if utf8Second3 b b1 then
          if isCont b2 then
            Char.ofNat ((b - 0xE0) * 4096 + (b1 - 0x80) * 64 + (b2 - 0x80)) ::
              utf8DecodeIgnoreGo fuel rest3
          else utf8DecodeIgnoreGo fuel (b2 :: rest3)
        else utf8DecodeIgnoreGo fuel (b1 :: b2 :: rest3)
    else if b ≤ 0xF4 then
      match rest with
      | [] => []
      | [b1] => if utf8Second4 b b1 then [] else utf8DecodeIgnoreGo fuel [b1]
      | [b1, b2] =>
        if utf8Second4 b b1 then
          if isCont b2 then [] else utf8DecodeIgnoreGo fuel [b2]
        else utf8DecodeIgnoreGo fuel [b1, b2]
      | b1 :: b2 :: b3 :: rest4 =>
        if utf8Second4 b b1 then
          if isCont b2 then
            if isCont b3 then
              Char.ofNat ((b - 0xF0) * 262144 + (b1 - 0x80) * 4096 +
                (b2 - 0x80) * 64 + (b3 - 0x80)) :: utf8DecodeIgnoreGo fuel rest4
            else utf8DecodeIgnoreGo fuel (b3 :: rest4)
          else utf8DecodeIgnoreGo fuel (b2 :: b3 :: rest4)
        else utf8DecodeIgnoreGo fuel (b1 :: b2 :: b3 :: rest4)
    else utf8DecodeIgnoreGo fuel rest

/-- Model of Python `bytes.decode("utf-8", errors="ignore")` (app.py line 89):
    decode valid UTF-8 sequences, silently skip bytes belonging to invalid or
    truncated sequences.  Skipping the offending lead byte and letting the now
    orphaned continuation bytes be skipped one at a time reproduces the output
    of CPython per-maximal-subpart skipping, since a continuation byte on its
    own is always invalid. -/
def utf8DecodeIgnore (l : List Nat) : List Char :=
  utf8DecodeIgnoreGo l.length l

/-- Characters removed by Python `str.strip()` with no argument: the Unicode
    whitespace set used by CPython `str.isspace`. -/
def isPyWs (c : Char) : Bool :=
  decide ((9 ≤ c.toNat ∧ c.toNat ≤ 13) ∨ (28 ≤ c.toNat ∧ c.toNat ≤ 31) ∨
    c.toNat = 32 ∨ c.toNat = 133 ∨ c.toNat = 160 ∨ c.toNat = 5760 ∨
    (8192 ≤ c.toNat ∧ c.toNat ≤ 8202) ∨ c.toNat = 8232 ∨ c.toNat = 8233 ∨
    c.toNat = 8239 ∨ c.toNat = 8287 ∨ c.toNat = 12288)

/-- Remove the longest suffix of characters satisfying `p`
    (Python `str.rstrip`). -/
def rstripWhile (p : Char → Bool) (cs : List Char) : List Char :=
  (cs.reverse.dropWhile p).reverse

/-- Python `decoded.rstrip("\r")` from app.py line 89. -/
def pyRstripCR (cs : List Char) : List Char :=
  rstripWhile (fun c => c = '\r') cs

/-- Python `str.strip()` with no argument (app.py line 90): remove leading and
    trailing whitespace. -/
def pyStrip (cs : List Char) : List Char :=
  (rstripWhile isPyWs cs).dropWhile isPyWs

/-- Header stripping from app.py lines 82-87: when a line is at least 8 bytes
    long and its first byte is one of the stream-type tag values recognized by
    the source (1 = stdout, 2 = stderr), the fixed 8-byte multiplexing header
    is stripped; otherwise the line is left unchanged. -/
def stripHeader (line : List Nat) : List Nat :=
  if 8 ≤ line.length then
    match line with
    | [] => line
    | b :: _ => if b = 1 ∨ b = 2 then line.drop 8 else line
  else line

/-- Decode stage applied to the payload after header stripping, app.py
    lines 89-92: permissive UTF-8 decode, strip trailing carriage returns,
    strip surrounding whitespace, and discard a line that became empty
    (`none` = no line is yielded). -/
def decodeBody (payload : List Nat) : Option String :=
  let decoded := pyRstripCR (utf8DecodeIgnore payload)
  let cleaned := pyStrip decoded
  if cleaned.isEmpty then none else some (String.mk cleaned)

/-- Full per-line processing of `stream_logs_generator` (app.py lines 78-92):
    strip the optional multiplexing header, then decode. -/
def decodeLine (line : List Nat) : Option String :=
  decodeBody (stripHeader line)

/-- Split a byte buffer at every line-feed byte, mirroring the loop
    `while b"\n" in buffer: line, buffer = buffer.split(b"\n", 1)`
    of app.py lines 74-75.  Returns the complete lines in order together with
    the residue (the bytes after the last line feed), which the generator
    keeps as its accumulation buffer.  `cur` is the unfinished line scanned so
    far. -/
def splitLinesAux : List Nat → List Nat → List (List Nat) × List Nat
  | [], cur => ([], cur)
  | b :: rest, cur =>
    if b = 10 then
      let (ls, r) := splitLinesAux rest []
      (cur :: ls, r)
    else splitLinesAux rest (cur ++ [b])

/-- Whether the current `stop_event.is_set()` call observes the event set.
    The stop schedule is quantized to the sequence of `is_set()` calls the
    generator makes: `some n` means the event becomes set just before the
    n-th call (so calls 0..n-1 observe it clear), `none` means the event is
    never set. -/
def stopSet : Option Nat → Bool
  | some 0 => true
  | some (_ + 1) => false
  | none => false

/-- Advance the stop schedule past one `is_set()` call. -/
def stopTick : Option Nat → Option Nat
  | some n => some (n - 1)
  | none => none

/-- The chunk loop of `stream_logs_generator`, app.py lines 67-100, over a
    list of raw chunks delivered by `response.iter_content`.  Per iteration:
    the next chunk is first received from the source (this is the blocking
    read), then `stop_event.is_set()` is checked (line 69, one stop tick);
    an empty chunk is skipped (line 71); otherwise the chunk is appended to
    the buffer, every complete line is extracted, empty lines are skipped
    (lines 76-77) and the rest are decoded and yielded (lines 78-92); finally
    `is_set()` is checked again (line 99, a second stop tick).  The result is
    the list of yielded lines paired with the number of chunks the generator
    consumed from the source. -/
def streamLogsGen : List (List Nat) → Option Nat → List Nat → List String × Nat
  | [], _, _ => ([], 0)
  | c :: rest, stopAt, buffer =>
    if stopSet stopAt then ([], 1)
    else if c = [] then
      let r := streamLogsGen rest (stopTick stopAt) buffer
      (r.1, r.2 + 1)
    else
      let pr := splitLinesAux (buffer ++ c) []
      let ys := (pr.1.filter (fun l => !l.isEmpty)).filterMap decodeLine
      if stopSet (stopTick stopAt) then (ys, 1)
      else
        let r := streamLogsGen rest (stopTick (stopTick stopAt)) pr.2
        (ys ++ r.1, r.2 + 1)

/-- Run of the generator from an empty buffer. -/
def streamLogsRun (chunks : List (List Nat)) (stopAt : Option Nat) :
    List String × Nat :=
  streamLogsGen chunks stopAt []

/-- Per-viewer session state stored in `user_sessions` (app.py lines 112-120):
    `hasClient` models `docker_client is not None`. -/
structure Session where
  hasClient : Bool
  dockerUrl : Option String
  connected : Bool
deriving DecidableEq

/-- The session created by `get_user_session` on first access. -/
def defaultSession : Session :=
  { hasClient := false, dockerUrl := none, connected := false }

/-- One running stream thread together with its stop event.  `key` is the
    string `sid ++ ":" ++ container_id` under which it was registered and
    `sid` the owning viewer; `stopEvent` is whether its `threading.Event`
    has been set. -/
structure StreamInfo where
  id : Nat
  key : String
  sid : String
  stopEvent : Bool
deriving DecidableEq

/-- Global broker state: `sessions` models `user_sessions`, `activeStreams`
    models the `active_streams` dict as an association list from stream key
    to the id of the registered stream, and `streams` holds every stream
    thread that is still alive (a finished thread is removed). -/
structure BrokerState where
  sessions : List (String × Session)
  activeStreams : List (String × Nat)
  streams : List StreamInfo
  nextId : Nat
deriving DecidableEq

/-- The state at server start: every dict empty. -/
def initState : BrokerState :=
  { sessions := [], activeStreams := [], streams := [], nextId := 0 }

/-- Socket events emitted with `socketio.emit(..., room=sid)`.  The first
    field is always the room (the target viewer). -/
inductive Ev where
  | log (sid message stream : String)
  | error (sid message : String)
  | dockerConnected (sid url : String) (count : Nat)
  | dockerConnectReady (sid : String)
  | dockerDisconnected (sid : String)
deriving DecidableEq

/-- Dict lookup in `active_streams`. -/
def lookupA (l : List (String × Nat)) (k : String) : Option Nat :=
  (l.find? (fun e => e.1 == k)).map Prod.snd

/-- Dict lookup in `user_sessions`. -/
def lookupS (l : List (String × Session)) (k : String) : Option Session :=
  (l.find? (fun e => e.1 == k)).map Prod.snd

/-- Dict deletion `del active_streams[k]`. -/
def eraseKeyA (l : List (String × Nat)) (k : String) : List (String × Nat) :=
  l.eraseP (fun e => e.1 == k)

/-- The session a viewer currently has, viewed through `get_user_session`:
    the stored one, or the default if none is stored yet. -/
def getSession (s : BrokerState) (sid : String) : Session :=
  (lookupS s.sessions sid).getD defaultSession

/-- Python `key.startswith(pre)`. -/
def pyStartsWith (k pre : String) : Bool :=
  pre.data.isPrefixOf k.data

/-- Model of `get_user_session` (app.py lines 112-120): return the stored session,
    creating and storing an empty one on first access. -/
def getUserSession (s : BrokerState) (sid : String) : BrokerState × Session :=
  match lookupS s.sessions sid with
  | some sess => (s, sess)
  | none =>
    ({ s with sessions := (sid, defaultSession) :: s.sessions }, defaultSession)

/-- Model of `stop_stream` (app.py lines 292-304): if the key has an entry, set the
    stop event of the registered stream and delete the entry immediately. -/
def stopStream (s : BrokerState) (key : String) : BrokerState :=
  match lookupA s.activeStreams key with
  | none => s
  | some i =>
    { s with
      streams := s.streams.map
        (fun st => if st.id = i then { st with stopEvent := true } else st),
      activeStreams := eraseKeyA s.activeStreams key }

/-- Model of `stop_user_streams` (app.py lines 307-310): snapshot the keys starting
    with `sid ++ ":"` and stop each. -/
def stopUserStreams (s : BrokerState) (sid : String) : BrokerState :=
  let ks := (s.activeStreams.map Prod.fst).filter
    (fun k => pyStartsWith k (sid ++ ":"))
  ks.foldl stopStream s

/-- Model of `start_logs` (app.py lines 208-276), up to and including the registration
    of the new stream.  The spawned thread runs asynchronously; its emissions
    and its termination are modelled separately by `streamBodyEvents` and
    `streamFinish`.  A missing `container_id` is `none`; the Python test
    `if not container_id` also treats the empty string as missing. -/
def startLogs (s : BrokerState) (sid : String) (containerId : Option String) :
    BrokerState × List Ev :=
  let p := getUserSession s sid
  let s1 := p.1
  let sess := p.2
  match containerId with
  | none => (s1, [Ev.error sid "No container_id provided"])
  | some cid =>
    if cid = "" then (s1, [Ev.error sid "No container_id provided"])
    else if !(sess.connected && sess.hasClient) then
      (s1, [Ev.error sid "Not connected to Docker"])
    else
      let key := sid ++ ":" ++ cid
      let s2 := if (lookupA s1.activeStreams key).isSome
                then stopStream s1 key else s1
      let st : StreamInfo :=
        { id := s2.nextId, key := key, sid := sid, stopEvent := false }
      ({ s2 with
          streams := st :: s2.streams,
          activeStreams := (key, st.id) :: eraseKeyA s2.activeStreams key,
          nextId := s2.nextId + 1 }, [])

/-- The events the `stream_logs` thread emits while running (app.py
    lines 234-251): the system connected message, then one `log` event with
    stream tag `"stdout"` for every line the generator yielded that is
    nonempty and has nonempty strip (line 246). -/
def streamBodyEvents (sid : String) (lines : List String) : List Ev :=
  Ev.log sid "Connected to container logs..." "system" ::
    (lines.filter (fun l => !(l == "") && !(pyStrip l.data).isEmpty)).map
      (fun l => Ev.log sid l "stdout")

/-- Termination of the `stream_logs` thread (app.py lines 253-267): on a
    failure (`err = some m`) an error event is emitted first; then the
    `finally` block removes whatever entry `active_streams` currently holds
    under the thread key, if any, and emits the system ended event.  The
    thread itself is removed from the set of live streams. -/
def streamFinish (s : BrokerState) (i : Nat) (err : Option String) :
    BrokerState × List Ev :=
  match s.streams.find? (fun st => st.id == i) with
  | none => (s, [])
  | some st =>
    let evs1 := match err with
      | some m => [Ev.error st.sid ("Log stream error: " ++ m)]
      | none => []
    let s1 := { s with streams := s.streams.eraseP (fun t => t.id == i) }
    let s2 := if (lookupA s1.activeStreams st.key).isSome
              then { s1 with activeStreams := eraseKeyA s1.activeStreams st.key }
              else s1
    (s2, evs1 ++ [Ev.log st.sid "Log stream ended" "system"])

/-- Model of `connect_docker` (app.py lines 123-157).  `containers` is the result of
    the `list_containers` liveness probe: `some n` a successful listing of
    `n` containers, `none` the probe failed (`list_containers` returned
    `None`, raising "Failed to connect to Docker API").  On failure the
    session dict is not touched; on success the client, url and connected
    flag are stored.  The `finally` clause always emits the ready signal. -/
def connectDocker (s : BrokerState) (sid url : String)
    (containers : Option Nat) : BrokerState × List Ev :=
  let s1 := (getUserSession s sid).1
  match containers with
  | none =>
    (s1, [Ev.error sid "Docker connection failed: Failed to connect to Docker API",
          Ev.dockerConnectReady sid])
  | some n =>
    let s2 := { s1 with sessions := s1.sessions.map (fun e =>
        if e.1 = sid then
          (e.1, { hasClient := true, dockerUrl := some url, connected := true })
        else e) }
    (s2, [Ev.dockerConnected sid url n, Ev.dockerConnectReady sid])

/-- Model of `disconnect_docker` (app.py lines 160-174): stop the viewer streams and
    reset the session fields. -/
def disconnectDocker (s : BrokerState) (sid : String) : BrokerState × List Ev :=
  let s1 := (getUserSession s sid).1
  let s2 := stopUserStreams s1 sid
  let s3 := { s2 with sessions := s2.sessions.map (fun e =>
      if e.1 = sid then (e.1, defaultSession) else e) }
  (s3, [Ev.dockerDisconnected sid])

/-- Model of the `stop_logs` handler (app.py lines 279-289). -/
def handleStopLogs (s : BrokerState) (sid : String) : BrokerState × List Ev :=
  (stopUserStreams s sid,
   [Ev.log sid "Disconnected from logs" "system"])

/-- Model of the `disconnect` handler (app.py lines 313-323): stop the viewer streams and
    delete the session. -/
def onDisconnect (s : BrokerState) (sid : String) : BrokerState × List Ev :=
  let s1 := stopUserStreams s sid
  ({ s1 with sessions := s1.sessions.eraseP (fun e => e.1 == sid) }, [])

/-- Set the stop event of every stream whose id occurs in `ids`. -/
def markIds (ss : List StreamInfo) (ids : List Nat) : List StreamInfo :=
  ss.map (fun st => if st.id ∈ ids then { st with stopEvent := true } else st)

/-- The stream ids that a sequence of `stop_stream` calls on `ks` picks out of
    the registry `l`, in order. -/
def idsTaken : List (String × Nat) → List String → List Nat
  | _, [] => []
  | l, k :: ks =>
    match lookupA l k with
    | some i => i :: idsTaken (eraseKeyA l k) ks
    | none => idsTaken l ks

/-- Number of live stream threads for a key whose stop event is clear: the
    Running Streams of that key. -/
def runningFor (s : BrokerState) (key : String) : Nat :=
  (s.streams.filter (fun st => st.key == key && !st.stopEvent)).length

/-- Example run: viewer v configures a reachable endpoint. -/
def exConnect1 : BrokerState := (connectDocker initState "v" "u" (some 1)).1

/-- Viewer v starts logs for container c; thread 0 is registered. -/
def exStart1 : BrokerState := (startLogs exConnect1 "v" (some "c")).1

/-- Viewer v starts logs for container c again; thread 0 gets its stop event
    set and evicted, thread 1 is registered under the same key. -/
def exStart2 : BrokerState := (startLogs exStart1 "v" (some "c")).1

/-- The superseded thread 0 observes its stop event and terminates: its
    cleanup deletes whatever entry the registry holds under the key, which is
    now the entry of the superseding thread 1. -/
def exFinish : BrokerState := (streamFinish exStart2 0 none).1

/-- Viewer v starts logs for container c a third time; the registry has no
    entry for the key, so no supersession happens and thread 2 is registered,
    while thread 1 is still running. -/
def exStart3 : BrokerState := (startLogs exFinish "v" (some "c")).1

/-- Example run with two viewers whose ids collide under string
    concatenation: viewer a and viewer a:b both configure endpoints. -/
def exColl1 : BrokerState := (connectDocker initState "a" "u" (some 1)).1

/-- Second viewer a:b configures an endpoint. -/
def exColl2 : BrokerState := (connectDocker exColl1 "a:b" "u" (some 1)).1

/-- Viewer a starts logs for container x (stream key a:x, thread 0). -/
def exColl3 : BrokerState := (startLogs exColl2 "a" (some "x")).1

/-- Viewer a:b starts logs for container c (stream key a:b:c, thread 1). -/
def exColl4 : BrokerState := (startLogs exColl3 "a:b" (some "c")).1

/-- Example run: viewer v configures successfully, then retries against an
    unreachable endpoint. -/
def exRetry1 : BrokerState := (connectDocker initState "v" "u" (some 2)).1

/-- The failed reconnection attempt. -/
def exRetry2 : BrokerState := (connectDocker exRetry1 "v" "u2" none).1

/-- Lines the demultiplexer yields for a single chunk holding one line framed
    with the stderr stream-type byte (first byte 2) followed by the 7
    remaining header bytes and the payload "hello". -/
def exStderrLines : List String :=
  (streamLogsRun [[2, 0, 0, 0, 0, 0, 0, 5, 104, 101, 108, 108, 111, 10]] none).1

/-! ### Properties of the demultiplexer -/

/-- Dropping with a weaker predicate after dropping with a stronger one is the
    same as dropping with the weaker predicate alone. -/
theorem dropWhile_dropWhile_of_imp (p q : Char → Bool)
    (h : ∀ a, p a = true → q a = true) (xs : List Char) :
    (xs.dropWhile p).dropWhile q = xs.dropWhile q := by
  induction xs with
  | nil => rfl
  | cons x xs ih =>
    by_cases hp : p x = true
    · simp [List.dropWhile_cons, hp, h x hp, ih]
    · simp [List.dropWhile_cons, hp]

/-- The explicit `rstrip("\r")` of app.py line 89 is absorbed by the
    following `strip()`: a trailing carriage return counts as whitespace. -/
theorem pyStrip_pyRstripCR (cs : List Char) :
    pyStrip (pyRstripCR cs) = pyStrip cs := by
  unfold pyStrip pyRstripCR rstripWhile
  rw [List.reverse_reverse,
    dropWhile_dropWhile_of_imp (fun c => decide (c = '\r')) isPyWs
      (by intro a ha; simp only [decide_eq_true_eq] at ha; subst ha; decide)
      cs.reverse]

/-- Once the generator observes the stop event (schedule `some 0`: the very
    next `is_set()` call returns true) it yields nothing more — but it still
    consumes one further chunk from the source when one arrives, because the
    check at app.py line 69 runs only after `iter_content` has returned the
    next chunk; the blocked read itself is never interrupted. -/
theorem streamLogsGen_stopped (chunks : List (List Nat)) (buf : List Nat) :
    streamLogsGen chunks (some 0) buf = ([], min chunks.length 1) := by
  cases chunks with
  | nil => simp [streamLogsGen]
  | cons c rest =>
    simp [streamLogsGen, stopSet, Nat.succ_min_succ]

/-- After the stop event is set at call index `n` of the stop schedule, the
    generator consumes at most `n + 1` chunks in total: at most one chunk
    beyond the reception during which the event was set. -/
theorem streamLogsGen_consumed_le (chunks : List (List Nat)) :
    ∀ (n : Nat) (buf : List Nat),
      (streamLogsGen chunks (some n) buf).2 ≤ n + 1 := by
  induction chunks with
  | nil => intro n buf; simp [streamLogsGen]
  | cons c rest ih =>
    intro n buf
    match n with
    | 0 => simp [streamLogsGen, stopSet]
    | 1 =>
      by_cases hc : c = []
      · simp [streamLogsGen, stopSet, stopTick, hc]
        have := ih 0 buf
        omega
      · simp [streamLogsGen, stopSet, stopTick, hc]
    | m + 2 =>
      by_cases hc : c = []
      · simp [streamLogsGen, stopSet, stopTick, hc]
        have := ih (m + 1) buf
        omega
      · simp [streamLogsGen, stopSet, stopTick, hc]
        have := ih m (splitLinesAux (buf ++ c) []).2
        omega

/-- Claim C2 (amended): cancellation is cooperative and polled only at chunk
    boundaries.  Once the stop event is set the generator delivers no further
    lines, but it does not interrupt a blocked read: it terminates only after
    at most one additional chunk has been received from the source (the
    `is_set()` checks of app.py lines 69 and 99 run between receptions), and
    the chunked-response object is not released until then. -/
theorem cancellation_polled_at_chunk_granularity :
    (∀ (chunks : List (List Nat)) (buf : List Nat),
        streamLogsGen chunks (some 0) buf = ([], min chunks.length 1)) ∧
    (∀ (chunks : List (List Nat)) (n : Nat) (buf : List Nat),
        (streamLogsGen chunks (some n) buf).2 ≤ n + 1) :=
  ⟨streamLogsGen_stopped, fun chunks n buf => streamLogsGen_consumed_le chunks n buf⟩

/-- Claim C2 counterexample: the source delivers chunk `b"a\n"`, the stop
    event is set while the generator is blocked reading the next chunk (stop
    schedule `some 2`: both `is_set()` calls of the first iteration observe it
    clear), and the source later delivers `b"b\n"`.  The claim says the unit
    terminates without waiting for further data, i.e. consumes only the one
    chunk received before the stop; the code consumes a second chunk — the
    read is abandoned only when the next chunk arrives. -/
theorem cancellation_blocked_read_counterexample :
    streamLogsRun [[97, 10], [98, 10]] (some 2) = (["a"], 2) ∧
    ¬((streamLogsRun [[97, 10], [98, 10]] (some 2)).2 ≤ 1) := by decide

/-- Claim C3: a line of at least 8 bytes whose first byte is a stream-type
    tag value (1 = stdout, 2 = stderr, app.py line 86) has exactly its first
    8 bytes stripped before the remainder is decoded — including a genuine
    text line that merely happens to begin with a tag byte, which is thereby
    truncated; a line whose first byte is not a tag value, or that is shorter
    than 8 bytes, is passed on unchanged. -/
theorem header_strip_spec :
    (∀ (l : List Nat) (b : Nat), l.head? = some b → b = 1 ∨ b = 2 →
        8 ≤ l.length →
        stripHeader l = l.drop 8 ∧ decodeLine l = decodeBody (l.drop 8)) ∧
    (∀ (l : List Nat) (b : Nat), l.head? = some b → ¬(b = 1 ∨ b = 2) →
        stripHeader l = l) ∧
    (∀ l : List Nat, l.length < 8 → stripHeader l = l) := by
  refine ⟨?_, ?_, ?_⟩
  · intro l b hb htag hlen
    cases l with
    | nil => simp at hb
    | cons x t =>
      simp only [List.head?_cons, Option.some.injEq] at hb
      subst hb
      have h1 : stripHeader (x :: t) = (x :: t).drop 8 := by
        unfold stripHeader
        rw [if_pos hlen]
        exact if_pos htag
      exact ⟨h1, by rw [decodeLine, h1]⟩
  · intro l b hb htag
    cases l with
    | nil => simp at hb
    | cons x t =>
      simp only [List.head?_cons, Option.some.injEq] at hb
      subst hb
      unfold stripHeader
      by_cases hlen : 8 ≤ (x :: t).length
      · rw [if_pos hlen]
        exact if_neg htag
      · exact if_neg hlen
  · intro l hlen
    unfold stripHeader
    rw [if_neg (by omega)]

/-- Claim C3 witness: the concrete header line 01 00 00 00 00 00 00 05 "hi"
    loses exactly its 8 header bytes and decodes to "hi". -/
theorem header_strip_spec_witness :
    stripHeader [1, 0, 0, 0, 0, 0, 0, 5, 104, 105] = [104, 105] ∧
    decodeLine [1, 0, 0, 0, 0, 0, 0, 5, 104, 105] = some "hi" :=
  have h := header_strip_spec.1 [1, 0, 0, 0, 0, 0, 0, 5, 104, 105] 1 rfl
    (Or.inl rfl) (by decide)
  ⟨h.1, by rw [h.2]; decide⟩

/-- Claim C4: the chunks `b"abc\ndef"` then `b"ghi\n"`, with the stop event
    never set, yield exactly the lines "abc" then "defghi": the line split
    across the chunk boundary is reassembled through the accumulation
    buffer.  Both chunks are consumed. -/
theorem split_line_reassembly :
    streamLogsRun [[97, 98, 99, 10, 100, 101, 102], [103, 104, 105, 10]] none =
      (["abc", "defghi"], 2) := by decide

/-- Claim C5 (amended): per-line decoding is total and permissive — every
    line decodes to the whitespace-trimmed result of the ignore-errors UTF-8
    decode of its payload, with bytes of invalid sequences silently dropped
    (not substituted), and a line that is empty after trimming is discarded
    (`none`) rather than yielded.  Concretely, an undecodable line is
    discarded and the stream continues with the following lines. -/
theorem decode_permissive_trim_discard :
    (∀ l : List Nat,
        decodeLine l =
          if (pyStrip (utf8DecodeIgnore (stripHeader l))).isEmpty then none
          else some (String.mk (pyStrip (utf8DecodeIgnore (stripHeader l))))) ∧
    decodeLine [255] = none ∧
    streamLogsRun [[255, 253, 10, 97, 10]] none = (["a"], 1) := by
  refine ⟨?_, by decide, by decide⟩
  intro l
  simp only [decodeLine, decodeBody, pyStrip_pyRstripCR]

/-- Claim C5 counterexample: the line FF "hi" contains the invalid byte FF.
    The claim says invalid sequences degrade to best-effort substitution; a
    substituting decoder yields the replacement character U+FFFD followed by
    "hi", but the code uses errors="ignore", which deletes the byte and
    yields plain "hi". -/
theorem decode_substitution_counterexample :
    decodeLine [255, 104, 105] = some "hi" ∧
    decodeLine [255, 104, 105] ≠ some (String.mk [Char.ofNat 65533, 'h', 'i']) := by
  decide

/-! ### Properties of the broker state machine -/

/-- Resolving a session never touches the stream registry. -/
theorem getUserSession_fst_activeStreams (s : BrokerState) (sid : String) :
    (getUserSession s sid).1.activeStreams = s.activeStreams := by
  unfold getUserSession
  cases lookupS s.sessions sid <;> rfl

/-- Resolving a session never touches the live stream threads. -/
theorem getUserSession_fst_streams (s : BrokerState) (sid : String) :
    (getUserSession s sid).1.streams = s.streams := by
  unfold getUserSession
  cases lookupS s.sessions sid <;> rfl

/-- Resolving a session never touches the id counter. -/
theorem getUserSession_fst_nextId (s : BrokerState) (sid : String) :
    (getUserSession s sid).1.nextId = s.nextId := by
  unfold getUserSession
  cases lookupS s.sessions sid <;> rfl

/-- The session returned by `get_user_session` is the stored one, or the
    default for a fresh viewer. -/
theorem getUserSession_snd (s : BrokerState) (sid : String) :
    (getUserSession s sid).2 = getSession s sid := by
  unfold getUserSession getSession
  cases h : lookupS s.sessions sid <;> simp [h]

/-- Looking a key up after storing a session for `k`. -/
theorem lookupS_cons (k : String) (v : Session) (l : List (String × Session))
    (x : String) :
    lookupS ((k, v) :: l) x = if k = x then some v else lookupS l x := by
  unfold lookupS
  rw [List.find?_cons]
  by_cases hx : k = x
  · simp [hx]
  · have hbx : (k == x) = false := by simp [hx]
    simp [hbx, hx]

/-- Materializing a fresh empty session does not change the session any
    viewer observes through `get_user_session`. -/
theorem getSession_getUserSession (s : BrokerState) (sid x : String) :
    getSession (getUserSession s sid).1 x = getSession s x := by
  unfold getUserSession
  cases h : lookupS s.sessions sid with
  | some sess => rfl
  | none =>
    show getSession { s with sessions := (sid, defaultSession) :: s.sessions } x
      = getSession s x
    unfold getSession
    show (lookupS ((sid, defaultSession) :: s.sessions) x).getD defaultSession
      = (lookupS s.sessions x).getD defaultSession
    rw [lookupS_cons]
    by_cases hx : sid = x
    · subst hx
      rw [if_pos rfl, h]
      rfl
    · rw [if_neg hx]

/-- Claim C1 (code bug): reachable state with two Running Streams for one
    stream key.  Viewer v starts container c logs twice (the second start
    supersedes thread 0 and registers thread 1); the superseded thread 0 then
    terminates, and its cleanup deletes the registry entry of thread 1; a
    third start finds no entry, skips supersession, and registers thread 2
    while thread 1 is still running with its stop event clear.  The registry
    holds only thread 2, yet two Running Streams for key v:c coexist. -/
theorem supersession_invariant_violated_by_cleanup_race :
    exStart3.activeStreams = [("v:c", 2)] ∧
    exStart3.streams = [{ id := 2, key := "v:c", sid := "v", stopEvent := false },
                        { id := 1, key := "v:c", sid := "v", stopEvent := false }] ∧
    runningFor exStart3 "v:c" = 2 := by decide

/-- Claim C7 (code bug): the terminating unit does emit the system ended
    event to its owning viewer and tolerates a missing entry, but it does not
    remove only its own entry — after a supersession, the finally block of
    the superseded thread 0 deletes the entry of the superseding thread 1
    (app.py lines 258-262 test only the key), leaving thread 1 running with
    no registry entry and its stop event clear. -/
theorem stream_finish_deletes_successor_entry :
    (streamFinish exStart2 0 none).2 = [Ev.log "v" "Log stream ended" "system"] ∧
    lookupA exStart2.activeStreams "v:c" = some 1 ∧
    lookupA exFinish.activeStreams "v:c" = none ∧
    exFinish.streams = [{ id := 1, key := "v:c", sid := "v", stopEvent := false }] := by
  decide

/-- Claim C8 (amended): when the `list_containers` liveness probe fails,
    `connect_docker` reports the failure to the requesting viewer only (one
    error event and the ready signal, both to that room) and leaves all
    broker state unchanged apart from materializing an empty session for a
    first-time viewer: the registry, the live streams and every session a
    viewer observes are exactly as before.  In particular a previously
    unconfigured session stays unconfigured with `connected = false`, while a
    previously configured session keeps its old configuration. -/
theorem connect_failure_leaves_state_unchanged (s : BrokerState) (sid url : String) :
    (connectDocker s sid url none).1.activeStreams = s.activeStreams ∧
    (connectDocker s sid url none).1.streams = s.streams ∧
    (connectDocker s sid url none).1.nextId = s.nextId ∧
    (∀ x, getSession (connectDocker s sid url none).1 x = getSession s x) ∧
    (connectDocker s sid url none).2 =
      [Ev.error sid "Docker connection failed: Failed to connect to Docker API",
       Ev.dockerConnectReady sid] :=
  ⟨getUserSession_fst_activeStreams s sid,
   getUserSession_fst_streams s sid,
   getUserSession_fst_nextId s sid,
   fun x => getSession_getUserSession s sid x,
   rfl⟩

/-- Claim C8 counterexample: viewer v configures successfully, then retries
    against an unreachable endpoint.  The claim says the failed configuration
    leaves the session with `connected = false`; the code does not touch the
    session on failure, so the viewer stays connected with the old
    configuration. -/
theorem connect_failure_keeps_connected_counterexample :
    (getSession exRetry2 "v").connected = true ∧
    ¬((getSession exRetry2 "v").connected = false) := by decide

/-- Claim C9 (amended): every event the streaming thread emits for a decoded
    line carries the stream tag "stdout", regardless of the stream-type byte
    of the multiplexed frame the line came from (the generator discards the
    header, and app.py line 249 hard-codes "stdout"); the only other tag the
    thread body uses is "system".  Error-output origin is never
    distinguished. -/
theorem line_events_tagged_system_or_stdout (sid : String) (lines : List String)
    (e : Ev) (he : e ∈ streamBodyEvents sid lines) :
    (∃ m, e = Ev.log sid m "system") ∨ (∃ m, e = Ev.log sid m "stdout") := by
  simp only [streamBodyEvents, List.mem_cons, List.mem_map] at he
  rcases he with h | ⟨l, _, rfl⟩
  · exact Or.inl ⟨_, h⟩
  · exact Or.inr ⟨l, rfl⟩

/-- Claim C9 witness: the tag dichotomy applied to the event produced for
    the stderr-framed line of `exStderrLines`. -/
theorem line_events_tagged_witness :
    (∃ m, Ev.log "v" "hello" "stdout" = Ev.log "v" m "system") ∨
    (∃ m, Ev.log "v" "hello" "stdout" = Ev.log "v" m "stdout") :=
  line_events_tagged_system_or_stdout "v" exStderrLines
    (Ev.log "v" "hello" "stdout") (by decide)

/-- Claim C9 counterexample: a line framed with the stderr stream-type byte
    (first byte 2) is delivered to the viewer tagged "stdout", not as
    error-output origin. -/
theorem stderr_line_tagged_stdout_counterexample :
    streamBodyEvents "v" exStderrLines =
      [Ev.log "v" "Connected to container logs..." "system",
       Ev.log "v" "hello" "stdout"] ∧
    Ev.log "v" "hello" "stdout" ≠ Ev.log "v" "hello" "stderr" := by decide

/-- Claim C10: a `start_logs` request with a missing or empty container id,
    or from a viewer whose session is not configured (connected flag false or
    no client stored), emits a single error event to that viewer and creates
    nothing: the registry, the live streams, the id counter and every session
    a viewer observes are unchanged (a first-time viewer merely has the empty
    default session materialized). -/
theorem start_logs_rejects_unconfigured (s : BrokerState) (sid : String)
    (cid : Option String)
    (h : cid = none ∨ cid = some "" ∨
      ((getSession s sid).connected && (getSession s sid).hasClient) = false) :
    (startLogs s sid cid).1.activeStreams = s.activeStreams ∧
    (startLogs s sid cid).1.streams = s.streams ∧
    (startLogs s sid cid).1.nextId = s.nextId ∧
    (∀ x, getSession (startLogs s sid cid).1 x = getSession s x) ∧
    ((startLogs s sid cid).2 = [Ev.error sid "No container_id provided"] ∨
     (startLogs s sid cid).2 = [Ev.error sid "Not connected to Docker"]) := by
  have hbase : ∀ evs : List Ev,
      (startLogs s sid cid).1 = (getUserSession s sid).1 →
      (startLogs s sid cid).2 = evs →
      ((startLogs s sid cid).2 = evs →
        ((startLogs s sid cid).2 = [Ev.error sid "No container_id provided"] ∨
         (startLogs s sid cid).2 = [Ev.error sid "Not connected to Docker"])) →
      (startLogs s sid cid).1.activeStreams = s.activeStreams ∧
      (startLogs s sid cid).1.streams = s.streams ∧
      (startLogs s sid cid).1.nextId = s.nextId ∧
      (∀ x, getSession (startLogs s sid cid).1 x = getSession s x) ∧
      ((startLogs s sid cid).2 = [Ev.error sid "No container_id provided"] ∨
       (startLogs s sid cid).2 = [Ev.error sid "Not connected to Docker"]) := by
    intro evs h1 h2 h3
    refine ⟨?_, ?_, ?_, ?_, h3 h2⟩
    · rw [h1]; exact getUserSession_fst_activeStreams s sid
    · rw [h1]; exact getUserSession_fst_streams s sid
    · rw [h1]; exact getUserSession_fst_nextId s sid
    · intro x; rw [h1]; exact getSession_getUserSession s sid x
  rcases h with h | h | h
  · subst h
    exact hbase [Ev.error sid "No container_id provided"] rfl rfl (fun h => Or.inl h)
  · subst h
    exact hbase [Ev.error sid "No container_id provided"] rfl rfl (fun h => Or.inl h)
  · cases cid with
    | none =>
      exact hbase [Ev.error sid "No container_id provided"] rfl rfl (fun h => Or.inl h)
    | some c =>
      by_cases hc : c = ""
      · subst hc
        exact hbase [Ev.error sid "No container_id provided"] rfl rfl (fun h => Or.inl h)
      · have hcond : (!((getUserSession s sid).2.connected &&
            (getUserSession s sid).2.hasClient)) = true := by
          rw [getUserSession_snd, h]
          rfl
        have h1 : (startLogs s sid (some c)).1 = (getUserSession s sid).1 := by
          unfold startLogs
          simp only [if_neg hc, if_pos hcond]
        have h2 : (startLogs s sid (some c)).2 =
            [Ev.error sid "Not connected to Docker"] := by
          unfold startLogs
          simp only [if_neg hc, if_pos hcond]
        exact hbase [Ev.error sid "Not connected to Docker"] h1 h2 (fun h => Or.inr h)

/-- Claim C10 witness: a fresh viewer sending `start_logs` with no container
    id: registry unchanged and a single error event. -/
theorem start_logs_rejects_unconfigured_witness :
    (startLogs initState "v" none).1.activeStreams = initState.activeStreams ∧
    ((startLogs initState "v" none).2 = [Ev.error "v" "No container_id provided"] ∨
     (startLogs initState "v" none).2 = [Ev.error "v" "Not connected to Docker"]) :=
  have h := start_logs_rejects_unconfigured initState "v" none (Or.inl rfl)
  ⟨h.1, h.2.2.2.2⟩

/-! ### Teardown of all streams of a viewer -/

/-- Erasing with a predicate nothing satisfies changes nothing. -/
theorem eraseP_eq_self_of_find?_none {α : Type} (p : α → Bool) :
    ∀ l : List α, l.find? p = none → l.eraseP p = l := by
  intro l
  induction l with
  | nil => intro _; rfl
  | cons a t ih =>
    intro h
    rw [List.find?_eq_none] at h
    rw [List.eraseP_cons_of_neg (h a (List.mem_cons_self a t))]
    rw [ih (List.find?_eq_none.mpr (fun x hx => h x (List.mem_cons_of_mem a hx)))]

/-- Stopping a key leaves the registry exactly as `del` would: the entry under
    the key is removed, and a missing key is a no-op. -/
theorem stopStream_activeStreams (s : BrokerState) (k : String) :
    (stopStream s k).activeStreams = eraseKeyA s.activeStreams k := by
  unfold stopStream
  cases h : lookupA s.activeStreams k with
  | none =>
    show s.activeStreams = eraseKeyA s.activeStreams k
    unfold eraseKeyA
    refine (eraseP_eq_self_of_find?_none _ _ ?_).symm
    unfold lookupA at h
    exact Option.map_eq_none'.mp h
  | some i => rfl

/-- Stopping a key does not touch the sessions. -/
theorem stopStream_sessions (s : BrokerState) (k : String) :
    (stopStream s k).sessions = s.sessions := by
  unfold stopStream
  cases lookupA s.activeStreams k <;> rfl

/-- Stopping a key does not touch the id counter. -/
theorem stopStream_nextId (s : BrokerState) (k : String) :
    (stopStream s k).nextId = s.nextId := by
  unfold stopStream
  cases lookupA s.activeStreams k <;> rfl

/-- Marking no ids changes nothing. -/
theorem markIds_nil (ss : List StreamInfo) : markIds ss [] = ss := by
  unfold markIds
  simp

/-- Marking a single id is the pointwise update `stop_stream` performs. -/
theorem markIds_singleton (ss : List StreamInfo) (i : Nat) :
    markIds ss [i] =
      ss.map (fun st => if st.id = i then { st with stopEvent := true } else st) := by
  unfold markIds
  apply List.map_congr_left
  intro st _
  simp [List.mem_singleton]

/-- Consecutive markings accumulate. -/
theorem markIds_mark (ss : List StreamInfo) (i : Nat) (ids : List Nat) :
    markIds (markIds ss [i]) ids = markIds ss (i :: ids) := by
  unfold markIds
  rw [List.map_map]
  apply List.map_congr_left
  intro st _
  show (fun st => if st.id ∈ ids then { st with stopEvent := true } else st)
      ((fun st => if st.id ∈ [i] then { st with stopEvent := true } else st) st) =
    if st.id ∈ i :: ids then { st with stopEvent := true } else st
  by_cases h1 : st.id = i <;> by_cases h2 : st.id ∈ ids <;>
    simp [h1, h2, List.mem_singleton, List.mem_cons]

/-- Looking up a key different from the head key skips the head. -/
theorem lookupA_cons_of_ne (e : String × Nat) (l : List (String × Nat))
    (k : String) (h : ¬e.1 = k) : lookupA (e :: l) k = lookupA l k := by
  unfold lookupA
  rw [List.find?_cons]
  have hb : (e.1 == k) = false := by simp [h]
  rw [hb]

/-- Looking up the head key returns the head value. -/
theorem lookupA_cons_self (e : String × Nat) (l : List (String × Nat)) :
    lookupA (e :: l) e.1 = some e.2 := by
  unfold lookupA
  rw [List.find?_cons]
  have hb : (e.1 == e.1) = true := by simp
  rw [hb]
  rfl

/-- Deleting a key different from the head key skips the head. -/
theorem eraseKeyA_cons_of_ne (e : String × Nat) (l : List (String × Nat))
    (k : String) (h : ¬e.1 = k) : eraseKeyA (e :: l) k = e :: eraseKeyA l k := by
  unfold eraseKeyA
  apply List.eraseP_cons_of_neg
  simp [h]

/-- Deleting the head key drops the head entry. -/
theorem eraseKeyA_cons_self (e : String × Nat) (l : List (String × Nat)) :
    eraseKeyA (e :: l) e.1 = l := by
  unfold eraseKeyA
  apply List.eraseP_cons_of_pos
  simp

/-- A sequence of stops for keys different from the head entry key leaves the
    head entry in place. -/
theorem foldl_eraseKeyA_cons_of_ne (e : String × Nat) :
    ∀ (ks : List String) (l : List (String × Nat)),
      (∀ k ∈ ks, ¬e.1 = k) →
      ks.foldl eraseKeyA (e :: l) = e :: ks.foldl eraseKeyA l := by
  intro ks
  induction ks with
  | nil => intro l _; rfl
  | cons k ks ih =>
    intro l h
    rw [List.foldl_cons, List.foldl_cons,
      eraseKeyA_cons_of_ne e l k (h k (List.mem_cons_self k ks))]
    exact ih (eraseKeyA l k) (fun x hx => h x (List.mem_cons_of_mem k hx))

/-- Stopping every key of the registry that satisfies `p` erases exactly the
    entries whose key satisfies `p`. -/
theorem foldl_eraseKeyA_filter (p : String → Bool) :
    ∀ l : List (String × Nat),
      ((l.map Prod.fst).filter p).foldl eraseKeyA l =
        l.filter (fun e => !(p e.1)) := by
  intro l
  induction l with
  | nil => rfl
  | cons e t ih =>
    rw [List.map_cons]
    by_cases hp : p e.1 = true
    · rw [List.filter_cons_of_pos hp, List.foldl_cons, eraseKeyA_cons_self, ih,
        List.filter_cons_of_neg (by simp [hp])]
    · have hne : ∀ k ∈ (t.map Prod.fst).filter p, ¬e.1 = k := by
        intro k hk he
        exact hp (he ▸ (List.mem_filter.mp hk).2)
      rw [List.filter_cons_of_neg (by simp [hp]),
        foldl_eraseKeyA_cons_of_ne e _ t hne, ih,
        List.filter_cons_of_pos (by simp [hp])]

/-- A sequence of stops for keys different from the head entry key picks the
    same stream ids whether or not the head entry is present. -/
theorem idsTaken_cons_of_ne (e : String × Nat) :
    ∀ (ks : List String) (l : List (String × Nat)),
      (∀ k ∈ ks, ¬e.1 = k) → idsTaken (e :: l) ks = idsTaken l ks := by
  intro ks
  induction ks with
  | nil => intro l _; rfl
  | cons k ks ih =>
    intro l h
    have hk := h k (List.mem_cons_self k ks)
    have hrest : ∀ x ∈ ks, ¬e.1 = x := fun x hx => h x (List.mem_cons_of_mem k hx)
    simp only [idsTaken, lookupA_cons_of_ne e l k hk, eraseKeyA_cons_of_ne e l k hk]
    cases hl : lookupA l k with
    | none => exact ih l hrest
    | some i => rw [ih (eraseKeyA l k) hrest]

/-- The ids picked by stopping every key of the registry that satisfies `p`
    are the values of the entries whose key satisfies `p`, in order. -/
theorem idsTaken_filter (p : String → Bool) :
    ∀ l : List (String × Nat),
      idsTaken l ((l.map Prod.fst).filter p) =
        (l.filter (fun e => p e.1)).map Prod.snd := by
  intro l
  induction l with
  | nil => rfl
  | cons e t ih =>
    rw [List.map_cons]
    by_cases hp : p e.1 = true
    · rw [List.filter_cons_of_pos hp]
      simp only [idsTaken, lookupA_cons_self, eraseKeyA_cons_self]
      rw [ih, List.filter_cons_of_pos (by exact hp), List.map_cons]
    · have hne : ∀ k ∈ (t.map Prod.fst).filter p, ¬e.1 = k := by
        intro k hk he
        exact hp (he ▸ (List.mem_filter.mp hk).2)
      rw [List.filter_cons_of_neg hp, idsTaken_cons_of_ne e _ t hne, ih,
        List.filter_cons_of_neg (by exact hp)]

/-- No key satisfying `p` survives in the registry filtered to keys not
    satisfying `p`. -/
theorem lookupA_filter_none (p : String → Bool) (k : String) (hp : p k = true) :
    ∀ l : List (String × Nat),
      lookupA (l.filter (fun e => !(p e.1))) k = none := by
  intro l
  induction l with
  | nil => rfl
  | cons e t ih =>
    by_cases hpe : p e.1 = true
    · rw [List.filter_cons_of_neg (by simp [hpe])]
      exact ih
    · rw [List.filter_cons_of_pos (by simp [hpe])]
      have hne : ¬e.1 = k := fun he => hpe (he ▸ hp)
      rw [lookupA_cons_of_ne e _ k hne]
      exact ih

/-- A key not satisfying `p` resolves identically in the filtered registry. -/
theorem lookupA_filter_keep (p : String → Bool) (k : String) (hp : p k = false) :
    ∀ l : List (String × Nat),
      lookupA (l.filter (fun e => !(p e.1))) k = lookupA l k := by
  intro l
  induction l with
  | nil => rfl
  | cons e t ih =>
    by_cases hek : e.1 = k
    · have hpe : p e.1 = false := by rw [hek]; exact hp
      rw [List.filter_cons_of_pos (by simp [hpe])]
      unfold lookupA
      rw [List.find?_cons, List.find?_cons]
      have hb : (e.1 == k) = true := by simp [hek]
      rw [hb]
    · by_cases hpe : p e.1 = true
      · rw [List.filter_cons_of_neg (by simp [hpe]), ih,
          lookupA_cons_of_ne e t k hek]
      · rw [List.filter_cons_of_pos (by simp [hpe]),
          lookupA_cons_of_ne e _ k hek, ih, lookupA_cons_of_ne e t k hek]

/-- Every stream whose id is among the marked ids ends up with its stop
    event set. -/
theorem markIds_stopped (ss : List StreamInfo) (ids : List Nat) (i : Nat)
    (hi : i ∈ ids) :
    ∀ st ∈ markIds ss ids, st.id = i → st.stopEvent = true := by
  intro st hst hid
  unfold markIds at hst
  rcases List.mem_map.mp hst with ⟨st0, _, rfl⟩
  by_cases h0 : st0.id ∈ ids
  · simp [h0]
  · rw [if_neg h0] at hid
    exact absurd (by rw [hid]; exact hi) h0

/-- Characterization of a `stop_stream` cascade: only the registry and the
    stop events change; the registry loses the processed keys one by one and
    the streams they pointed to get their events set. -/
theorem foldl_stopStream_spec :
    ∀ (ks : List String) (s : BrokerState),
      (ks.foldl stopStream s).sessions = s.sessions ∧
      (ks.foldl stopStream s).nextId = s.nextId ∧
      (ks.foldl stopStream s).activeStreams = ks.foldl eraseKeyA s.activeStreams ∧
      (ks.foldl stopStream s).streams = markIds s.streams (idsTaken s.activeStreams ks) := by
  intro ks
  induction ks with
  | nil => intro s; exact ⟨rfl, rfl, rfl, (markIds_nil s.streams).symm⟩
  | cons k ks ih =>
    intro s
    have h := ih (stopStream s k)
    cases hl : lookupA s.activeStreams k with
    | none =>
      have hs : stopStream s k = s := by unfold stopStream; rw [hl]
      rw [List.foldl_cons, hs]
      have h' := ih s
      refine ⟨h'.1, h'.2.1, ?_, ?_⟩
      · rw [h'.2.2.1, List.foldl_cons]
        unfold eraseKeyA
        rw [eraseP_eq_self_of_find?_none _ _ (Option.map_eq_none'.mp hl)]
      · rw [h'.2.2.2]
        congr 1
        simp only [idsTaken, hl]
    | some i =>
      have hstr : (stopStream s k).streams = markIds s.streams [i] := by
        unfold stopStream
        rw [hl]
        exact (markIds_singleton s.streams i).symm
      refine ⟨?_, ?_, ?_, ?_⟩
      · rw [List.foldl_cons, h.1, stopStream_sessions]
      · rw [List.foldl_cons, h.2.1, stopStream_nextId]
      · rw [List.foldl_cons, h.2.2.1, stopStream_activeStreams, List.foldl_cons]
      · rw [List.foldl_cons, h.2.2.2, hstr, stopStream_activeStreams,
          markIds_mark]
        congr 1
        simp only [idsTaken, hl]

/-- Effect of `stop_user_streams` on the whole broker state: sessions and the
    id counter untouched, the registry keeps exactly the entries whose key
    does not start with the viewer tag, and the streams the removed entries
    pointed to get their stop events set. -/
theorem stopUserStreams_spec (s : BrokerState) (sid : String) :
    (stopUserStreams s sid).sessions = s.sessions ∧
    (stopUserStreams s sid).nextId = s.nextId ∧
    (stopUserStreams s sid).activeStreams =
      s.activeStreams.filter (fun e => !(pyStartsWith e.1 (sid ++ ":"))) ∧
    (stopUserStreams s sid).streams =
      markIds s.streams
        ((s.activeStreams.filter (fun e => pyStartsWith e.1 (sid ++ ":"))).map
          Prod.snd) := by
  have h := foldl_stopStream_spec
    ((s.activeStreams.map Prod.fst).filter (fun k => pyStartsWith k (sid ++ ":"))) s
  refine ⟨h.1, h.2.1, ?_, ?_⟩
  · rw [show (stopUserStreams s sid).activeStreams =
        (((s.activeStreams.map Prod.fst).filter
          (fun k => pyStartsWith k (sid ++ ":"))).foldl stopStream s).activeStreams
        from rfl,
      h.2.2.1, foldl_eraseKeyA_filter]
  · rw [show (stopUserStreams s sid).streams =
        (((s.activeStreams.map Prod.fst).filter
          (fun k => pyStartsWith k (sid ++ ":"))).foldl stopStream s).streams
        from rfl,
      h.2.2.2, idsTaken_filter]

/-- Claim C6 (amended): tearing a viewer down — directly via
    `stop_user_streams`, or through `stop_logs`, socket disconnect, or
    `disconnect_docker` — removes exactly the registry entries whose key
    string starts with the viewer id followed by a colon, and sets the stop
    event of every stream those entries pointed to; entries whose key lacks
    that tag resolve exactly as before.  Ownership is only this string tag: a
    viewer id that itself contains a colon can make another viewer keys share
    the tag and be torn down too, and a stream with no registry entry is not
    stopped. -/
theorem teardown_registry_effect (s : BrokerState) (sid : String) :
    (stopUserStreams s sid).activeStreams =
      s.activeStreams.filter (fun e => !(pyStartsWith e.1 (sid ++ ":"))) ∧
    (handleStopLogs s sid).1.activeStreams =
      s.activeStreams.filter (fun e => !(pyStartsWith e.1 (sid ++ ":"))) ∧
    (onDisconnect s sid).1.activeStreams =
      s.activeStreams.filter (fun e => !(pyStartsWith e.1 (sid ++ ":"))) ∧
    (disconnectDocker s sid).1.activeStreams =
      s.activeStreams.filter (fun e => !(pyStartsWith e.1 (sid ++ ":"))) ∧
    (stopUserStreams s sid).streams =
      markIds s.streams
        ((s.activeStreams.filter (fun e => pyStartsWith e.1 (sid ++ ":"))).map
          Prod.snd) ∧
    (∀ k, pyStartsWith k (sid ++ ":") = true →
        lookupA (stopUserStreams s sid).activeStreams k = none) ∧
    (∀ k, pyStartsWith k (sid ++ ":") = false →
        lookupA (stopUserStreams s sid).activeStreams k = lookupA s.activeStreams k) ∧
    (∀ k i, (k, i) ∈ s.activeStreams → pyStartsWith k (sid ++ ":") = true →
        ∀ st ∈ (stopUserStreams s sid).streams, st.id = i → st.stopEvent = true) := by
  have hs := stopUserStreams_spec s sid
  have hdd : (disconnectDocker s sid).1.activeStreams =
      (stopUserStreams (getUserSession s sid).1 sid).activeStreams := rfl
  have hs1 := stopUserStreams_spec (getUserSession s sid).1 sid
  refine ⟨hs.2.2.1, hs.2.2.1, hs.2.2.1, ?_, hs.2.2.2, ?_, ?_, ?_⟩
  · rw [hdd, hs1.2.2.1, getUserSession_fst_activeStreams]
  · intro k hk
    rw [hs.2.2.1]
    exact lookupA_filter_none (fun x => pyStartsWith x (sid ++ ":")) k hk
      s.activeStreams
  · intro k hk
    rw [hs.2.2.1]
    exact lookupA_filter_keep (fun x => pyStartsWith x (sid ++ ":")) k hk
      s.activeStreams
  · intro k i hmem hk st hst hid
    rw [hs.2.2.2] at hst
    exact markIds_stopped s.streams _ i
      (List.mem_map.mpr ⟨(k, i), List.mem_filter.mpr ⟨hmem, hk⟩, rfl⟩) st hst hid

/-- Claim C6 witness: in the two-viewer state `exColl4`, tearing viewer a
    down leaves no entry under the key a:x. -/
theorem teardown_registry_effect_witness :
    lookupA (stopUserStreams exColl4 "a").activeStreams "a:x" = none :=
  (teardown_registry_effect exColl4 "a").2.2.2.2.2.1 "a:x" (by decide)

/-- Claim C6 counterexample: viewer a:b has a running stream for container c
    under key a:b:c.  When viewer a (a distinct viewer) invokes `stop_logs`,
    the tag test `key.startswith("a:")` also matches a:b:c, so the other
    viewer entry is removed and its stream stopped — the claim that entries
    of every other viewer are left unchanged fails. -/
theorem teardown_other_viewer_counterexample :
    lookupA exColl4.activeStreams "a:b:c" = some 1 ∧
    (∃ st ∈ exColl4.streams, st.id = 1 ∧ st.sid = "a:b" ∧ st.stopEvent = false) ∧
    lookupA (handleStopLogs exColl4 "a").1.activeStreams "a:b:c" = none ∧
    (∃ st ∈ (handleStopLogs exColl4 "a").1.streams,
      st.id = 1 ∧ st.sid = "a:b" ∧ st.stopEvent = true) := by
  decide
